import Mathlib

/-!
Shallow embedding of the openbook_service Flask application (src/app.py).

The application is a single HTTP endpoint `POST /search-books` orchestrating
four collaborators: a profanity filter, a text-generation service (Ollama),
a book-search service (Open Library) and a second, streaming generation call.
We model JSON values, the request handler, and each helper function from the
source, threading a trace of outbound collaborator calls so that claims about
which collaborators are (not) invoked can be stated.
-/

/-- Python/JSON values as they flow through the program. -/
inductive Json where
  | null
  | bool (b : Bool)
  | num (n : Int)
  | str (s : String)
  | arr (xs : List Json)
  | obj (kvs : List (String × Json))

mutual

/-- Decidable equality on `Json`. -/
def Json.decEq : (a b : Json) → Decidable (a = b)
  | .null, .null => isTrue rfl
  | .bool a, .bool b =>
      match Bool.decEq a b with
      | isTrue h => isTrue (h ▸ rfl)
      | isFalse h => isFalse (fun hh => h (Json.bool.inj hh))
  | .num a, .num b =>
      match Int.decEq a b with
      | isTrue h => isTrue (h ▸ rfl)
      | isFalse h => isFalse (fun hh => h (Json.num.inj hh))
  | .str a, .str b =>
      match String.decEq a b with
      | isTrue h => isTrue (h ▸ rfl)
      | isFalse h => isFalse (fun hh => h (Json.str.inj hh))
  | .arr xs, .arr ys =>
      match Json.decEqList xs ys with
      | isTrue h => isTrue (h ▸ rfl)
      | isFalse h => isFalse (fun hh => h (Json.arr.inj hh))
  | .obj xs, .obj ys =>
      match Json.decEqObj xs ys with
      | isTrue h => isTrue (h ▸ rfl)
      | isFalse h => isFalse (fun hh => h (Json.obj.inj hh))
  | .null, .bool _ | .null, .num _ | .null, .str _ | .null, .arr _ | .null, .obj _ =>
      isFalse (fun h => Json.noConfusion h)
  | .bool _, .null | .bool _, .num _ | .bool _, .str _ | .bool _, .arr _ | .bool _, .obj _ =>
      isFalse (fun h => Json.noConfusion h)
  | .num _, .null | .num _, .bool _ | .num _, .str _ | .num _, .arr _ | .num _, .obj _ =>
      isFalse (fun h => Json.noConfusion h)
  | .str _, .null | .str _, .bool _ | .str _, .num _ | .str _, .arr _ | .str _, .obj _ =>
      isFalse (fun h => Json.noConfusion h)
  | .arr _, .null | .arr _, .bool _ | .arr _, .num _ | .arr _, .str _ | .arr _, .obj _ =>
      isFalse (fun h => Json.noConfusion h)
  | .obj _, .null | .obj _, .bool _ | .obj _, .num _ | .obj _, .str _ | .obj _, .arr _ =>
      isFalse (fun h => Json.noConfusion h)

/-- Decidable equality on lists of `Json`. -/
def Json.decEqList : (a b : List Json) → Decidable (a = b)
  | [], [] => isTrue rfl
  | [], _ :: _ => isFalse (fun h => List.noConfusion h)
  | _ :: _, [] => isFalse (fun h => List.noConfusion h)
  | x :: xs, y :: ys =>
      match Json.decEq x y with
      | isFalse h => isFalse (fun hh => h (List.cons.inj hh).1)
      | isTrue h1 =>
          match Json.decEqList xs ys with
          | isTrue h2 => isTrue (h1 ▸ h2 ▸ rfl)
          | isFalse h => isFalse (fun hh => h (List.cons.inj hh).2)

/-- Decidable equality on string-keyed `Json` association lists. -/
def Json.decEqObj : (a b : List (String × Json)) → Decidable (a = b)
  | [], [] => isTrue rfl
  | [], _ :: _ => isFalse (fun h => List.noConfusion h)
  | _ :: _, [] => isFalse (fun h => List.noConfusion h)
  | (k1, v1) :: xs, (k2, v2) :: ys =>
      match String.decEq k1 k2 with
      | isFalse h => isFalse (fun hh => h (congrArg Prod.fst (List.cons.inj hh).1))
      | isTrue hk =>
          match Json.decEq v1 v2 with
          | isFalse h => isFalse (fun hh => h (congrArg Prod.snd (List.cons.inj hh).1))
          | isTrue hv =>
              match Json.decEqObj xs ys with
              | isTrue ht => isTrue (hk ▸ hv ▸ ht ▸ rfl)
              | isFalse h => isFalse (fun hh => h (List.cons.inj hh).2)

end

instance : DecidableEq Json := Json.decEq

/-- `d.get(k, default)` on a Python dict with string keys (first binding wins,
as dict keys are unique). -/
def dictGet (kvs : List (String × Json)) (k : String) (d : Json) : Json :=
  match kvs.lookup k with
  | some v => v
  | none => d

/-- `k in d` on a Python dict with string keys. -/
def hasKey (kvs : List (String × Json)) (k : String) : Bool :=
  kvs.any (fun p => p.1 == k)

/-- Insertion into a Python dict literal: an existing key keeps its position
but its value is overwritten, a new key is appended. -/
def dictInsert (kvs : List (Json × Json)) (k v : Json) : List (Json × Json) :=
  if kvs.any (fun p => p.1 == k) then
    kvs.map (fun p => if p.1 = k then (k, v) else p)
  else
    kvs ++ [(k, v)]

/-- A Python dict literal built from a list of key/value pairs in order
(later duplicates overwrite earlier ones). -/
def dictLit (ps : List (Json × Json)) : List (Json × Json) :=
  ps.foldl (fun acc p => dictInsert acc p.1 p.2) []

/-- Python `str.strip()` on a character list: drop leading and trailing
whitespace. -/
def pyStripChars (cs : List Char) : List Char :=
  ((cs.dropWhile Char.isWhitespace).reverse.dropWhile Char.isWhitespace).reverse

/-- Python `str.strip()` (whitespace classes beyond space/tab/newline/return
are not distinguished by any claim). -/
def pyStrip (s : String) : String :=
  String.mk (pyStripChars s.data)

/-- Python `str(x)` as used on the title value in the refine f-string.
Exact `repr` of nested containers and string escaping are not modelled;
no claim exercises a non-string title. -/
def pyStr : Json → String
  | .str s => s
  | .num n => toString n
  | .bool b => if b then "True" else "False"
  | .null => "None"
  | .arr xs => "list of " ++ toString xs.length
  | .obj kvs => "dict of " ++ toString kvs.length

/-- Outcome of one (non-streaming) generation call, `requests.post` at
app.py line 82: either an exception anywhere in the `try` block (transport
failure, bad status, `eval` failure), carrying `str(e)`, or a successfully
evaluated configuration dict. -/
inductive GenOutcome where
  | fail (msg : String)
  | ok (cfg : List (String × Json))
deriving DecidableEq

/-- Outcome of the `requests.get` to Open Library (app.py line 102). -/
inductive SearchOutcome where
  | fail (msg : String)
  | ok (books : Json)
deriving DecidableEq

/-- Outcome of the streaming `requests.post` of the refinement step
(app.py line 129): an exception carrying `str(e)`, or the list of lines
produced by `response.iter_lines()`, already decoded. -/
inductive RefineOutcome where
  | fail (msg : String)
  | ok (lines : List String)
deriving DecidableEq

/-- The behaviour of the external collaborators during one request. -/
structure World where
  profane : String → Bool
  gen1 : GenOutcome
  gen2 : GenOutcome
  search : SearchOutcome
  refine : RefineOutcome

/-- One outbound collaborator invocation, recorded in order. -/
inductive Call where
  | moderation (text : String)
  | generate (userQuery : String)
  | search (params : List (Json × Json))
  | refine (prompt : String)
deriving DecidableEq

/-- An HTTP response: a JSON body with a status, or a streamed body. -/
inductive HttpResponse where
  | json (status : Nat) (body : Json)
  | stream (status : Nat) (contentType : String) (chunks : List String)
deriving DecidableEq

/-- `generate_query_with_ollama` (app.py lines 62-87): on any exception the
function returns the error dict with the `Ollama generation failed:` prefix,
otherwise the dict obtained from the model output. -/
def generate_query_with_ollama (o : GenOutcome) : List (String × Json) :=
  match o with
  | .fail msg => [("error", Json.str ("Ollama generation failed: " ++ msg))]
  | .ok cfg => cfg

/-- `validate_query_config` (app.py lines 90-93). -/
def required_keys : List String := ["query_type", "query_value"]

/-- `validate_query_config` checks that every required key is in the dict. -/
def validate_query_config (query_config : List (String × Json)) : Bool :=
  required_keys.all (fun key => hasKey query_config key)

/-- `query_config.get("query_type", "q")` (app.py line 99). -/
def ol_query_type (cfg : List (String × Json)) : Json :=
  dictGet cfg "query_type" (Json.str "q")

/-- `query_config.get("query_value", "")` (app.py line 100). -/
def ol_query_value (cfg : List (String × Json)) : Json :=
  dictGet cfg "query_value" (Json.str "")

/-- `query_config.get("limit", "3")` (app.py line 101). -/
def ol_limit (cfg : List (String × Json)) : Json :=
  dictGet cfg "limit" (Json.str "3")

/-- The `params` dict literal of app.py line 102:
`{query_type: query_value, limit: limit}` — note that the limit VALUE is
used as a parameter name. -/
def openLibraryParams (cfg : List (String × Json)) : List (Json × Json) :=
  dictLit [(ol_query_type cfg, ol_query_value cfg), (ol_limit cfg, ol_limit cfg)]

/-- `isinstance(x, dict) and "error" in x` as used on collaborator results
(app.py lines 28, 34, 40). -/
def isErrorDict : Json → Bool
  | .obj kvs => hasKey kvs "error"
  | _ => false

/-- `search_books_with_openlibrary` (app.py lines 96-107): builds the params,
issues the GET, and on exception returns the error dict with the
`Open Library API failed:` prefix. Returns the result together with the
single outbound call made. -/
def search_books_with_openlibrary (w : World) (query_config : List (String × Json)) :
    Json × List Call :=
  let params := openLibraryParams query_config
  match w.search with
  | .fail msg =>
      (Json.obj [("error", Json.str ("Open Library API failed: " ++ msg))], [Call.search params])
  | .ok books => (books, [Call.search params])

/-- A JSON value that must be a string (joining a non-string raises). -/
def strOfJson : Json → Option String
  | Json.str s => some s
  | _ => none

/-- Evaluate `f` over a list left to right, failing as soon as `f` does;
this is the effect of a Python list comprehension whose body may raise. -/
def optTraverse (f : Json → Option String) : List Json → Option (List String)
  | [] => some []
  | x :: xs =>
      match f x with
      | none => none
      | some y =>
          match optTraverse f xs with
          | none => none
          | some ys => some (y :: ys)

/-- Comma-join (`join` with separator comma-space) on the author value: joins a list of strings; a string is
iterated character by character; anything else raises (modelled as `none`). -/
def joinAuthors : Json → Option String
  | .arr xs => (optTraverse strOfJson xs).map (String.intercalate ", ")
  | .str s => some (String.intercalate ", " (s.data.map (fun c => String.mk [c])))
  | _ => none

/-- One bullet of the book list (app.py line 116): bullet, quoted title,
the word by, then the joined authors, with the defaults applied by `.get`; a non-dict book raises (modelled as
`none`). -/
def bookLine : Json → Option String
  | .obj kvs =>
      let t := dictGet kvs "title" (Json.str "Unknown Title")
      let a := dictGet kvs "author_name" (Json.arr [Json.str "Unknown Author"])
      (joinAuthors a).map (fun as => "• \x27" ++ pyStr t ++ "\x27 by " ++ as)
  | _ => none

/-- `books.get("docs", [])[:3]` iteration domain: slicing a list keeps it,
slicing a string yields its characters, anything else raises. -/
def docsSlice : Json → Option (List Json)
  | .arr xs => some xs
  | .str s => some (s.data.map (fun c => Json.str (String.mk [c])))
  | _ => none

/-- The `book_details` string of app.py lines 114-119, given the books value
returned by the search step; `none` models an exception inside the `try`
(caught at line 141). -/
def book_details (books : Json) : Option String :=
  match books with
  | .obj kvs =>
      (docsSlice (dictGet kvs "docs" (Json.arr []))).bind (fun docs =>
        (optTraverse bookLine (docs.take 3)).map (String.intercalate "\n"))
  | _ => none

/-- The refinement prompt (app.py lines 122-125). -/
def refine_prompt (user_query book_details : String) : String :=
  "The user asked: \x27" ++ user_query ++ "\x27. Based on the following books:\n" ++
    book_details ++
    "\nWrite an engaging intro, include the book details as bullets, and a happy outro. Use plain text."

/-- The `stream_chunks` generator of app.py lines 133-137: every truthy
(non-empty) line is forwarded with a newline appended; empty lines are
skipped by `if chunk:`. -/
def stream_chunks : List String → List String
  | [] => []
  | c :: rest => if c = "" then stream_chunks rest else (c ++ "\n") :: stream_chunks rest

/-- Placeholder for `str(e)` of an exception raised while building the
prompt (its exact text is irrelevant to every claim). -/
def internalExnText : String := "internal exception"

/-- `refine_response_with_ollama` (app.py lines 110-142): build the book
list (any exception yields the `Refinement failed:` error with status 500),
issue the streaming POST, and wrap the generator in a `text/plain` response. -/
def refine_response_with_ollama (w : World) (user_query : String) (books : Json) :
    HttpResponse × List Call :=
  match book_details books with
  | none =>
      (HttpResponse.json 500
        (Json.obj [("error", Json.str ("Refinement failed: " ++ internalExnText))]), [])
  | some details =>
      match w.refine with
      | .fail msg =>
          (HttpResponse.json 500
            (Json.obj [("error", Json.str ("Refinement failed: " ++ msg))]),
           [Call.refine (refine_prompt user_query details)])
      | .ok lines =>
          (HttpResponse.stream 200 "text/plain" (stream_chunks lines),
           [Call.refine (refine_prompt user_query details)])

/-- The single chunk of `respond_with_profanity_message` (app.py lines 55-60):
`json.dumps(chunk) + "\n"`. -/
def profanity_chunk : String :=
  "\x7b\"response\": \"The Book Search service is moderated, and does now allow for profanity\"\x7d\n"

/-- `respond_with_profanity_message` (app.py lines 55-60): a streamed
`application/json` response, default status 200, with the single chunk. -/
def respond_with_profanity_message : HttpResponse :=
  HttpResponse.stream 200 "application/json" [profanity_chunk]

/-- The request body as parsed by `request.get_json()`: absent/null, or a
JSON object (the inbound contract of the endpoint, spec section 6). -/
def invalid_query (data : Option (List (String × Json))) : Bool :=
  match data with
  | none => true
  | some kvs =>
      kvs.isEmpty ||
      match kvs.lookup "query" with
      | none => true
      | some (Json.str s) => pyStrip s = ""
      | some _ => true

/-- The raw value of `data["query"]` (only used on the valid path, where it
is a string). -/
def query_field (data : Option (List (String × Json))) : String :=
  match data with
  | some kvs =>
      match kvs.lookup "query" with
      | some (Json.str s) => s
      | _ => ""
  | none => ""

/-- A Python exception escaping the handler body (caught at app.py line 51). -/
inductive PyExn where
  | nameError (name : String)
deriving DecidableEq

/-- app.py line 19: the 400 body. -/
def invalidInputBody : Json :=
  Json.obj [("error", Json.str "Invalid input. \x27query\x27 must be a non-empty string.")]

/-- The search and refinement phases of the handler (app.py lines 38-49),
shared by the valid-config and the after-retry paths. -/
def after_generation (w : World) (user_query : String) (query_config : List (String × Json))
    (t : List Call) : Except (PyExn × List Call) (HttpResponse × List Call) :=
  let sr := search_books_with_openlibrary w query_config
  let t1 := t ++ sr.2
  if isErrorDict sr.1 then
    Except.ok (HttpResponse.json 500 sr.1, t1)
  else
    let rr := refine_response_with_ollama w user_query sr.1
    Except.ok (rr.1, t1 ++ rr.2)

/-- The body of the `try` block of `search_books` (app.py lines 16-49).
Control flow follows the source line by line; the `Except.error` case models
a raised exception: at line 35 the name `logger` is undefined, so the
logging statement raises `NameError` before line 36 can return. -/
def search_books_body (w : World) (data : Option (List (String × Json))) :
    Except (PyExn × List Call) (HttpResponse × List Call) :=
  if invalid_query data then
    Except.ok (HttpResponse.json 400 invalidInputBody, [])
  else
    let user_query := pyStrip (query_field data)
    let t0 := [Call.moderation user_query]
    if w.profane user_query then
      Except.ok (respond_with_profanity_message, t0)
    else
      let query_config := generate_query_with_ollama w.gen1
      let t1 := t0 ++ [Call.generate user_query]
      if hasKey query_config "error" then
        Except.ok (HttpResponse.json 500 (Json.obj query_config), t1)
      else if validate_query_config query_config then
        after_generation w user_query query_config t1
      else
        let retry_config := generate_query_with_ollama w.gen2
        let t2 := t1 ++ [Call.generate user_query]
        if hasKey retry_config "error" then
          Except.error (PyExn.nameError "logger", t2)
        else
          after_generation w user_query retry_config t2

/-- app.py line 52: the catch-all body. -/
def unexpectedErrorBody : Json :=
  Json.obj [("error", Json.str "An unexpected error occurred.")]

/-- `search_books` (app.py lines 12-52): the `try`/`except` wrapper around
the body; any escaped exception becomes the generic 500. Returns the
response together with the trace of outbound collaborator calls. -/
def search_books (w : World) (data : Option (List (String × Json))) :
    HttpResponse × List Call :=
  match search_books_body w data with
  | .ok r => r
  | .error e => (HttpResponse.json 500 unexpectedErrorBody, e.2)

/-- Number of generation calls in a trace. -/
def genCount (t : List Call) : Nat :=
  (t.filter (fun c => match c with | Call.generate _ => true | _ => false)).length

/-- Spec-side accessor: the document title, when present as a string. -/
def docTitleOpt : Json → Option String
  | Json.obj kvs =>
      match kvs.lookup "title" with
      | some (Json.str s) => some s
      | _ => none
  | _ => none

/-- Spec-side accessor: the document author list, when present as a list of
strings. -/
def docAuthorsOpt : Json → Option (List String)
  | Json.obj kvs =>
      match kvs.lookup "author_name" with
      | some (Json.arr xs) => optTraverse strOfJson xs
      | _ => none
  | _ => none

/-- A well-formed search document: an object whose `title` field, if present,
is a string, and whose `author_name` field, if present, is a list of
strings. -/
def WfDoc : Json → Bool
  | Json.obj kvs =>
      (match kvs.lookup "title" with
       | none => true
       | some (Json.str _) => true
       | some _ => false) &&
      (match kvs.lookup "author_name" with
       | none => true
       | some (Json.arr xs) => xs.all (fun j => match j with | Json.str _ => true | _ => false)
       | some _ => false)
  | _ => false

/-- Rendering of one document as the spec words it: its title and
comma-joined author list, defaulting to `Unknown Title` / `Unknown Author`
when the field is absent. -/
def specRenderDoc (d : Json) : String :=
  "• \x27" ++ ((docTitleOpt d).getD "Unknown Title") ++ "\x27 by " ++
    String.intercalate ", " ((docAuthorsOpt d).getD ["Unknown Author"])

/-! ## Helper lemmas -/

/-- Invalid-input path of the handler (app.py lines 18-19). -/
theorem sb_invalid (w : World) (data : Option (List (String × Json)))
    (h : invalid_query data = true) :
    search_books w data = (HttpResponse.json 400 invalidInputBody, []) := by
  simp [search_books, search_books_body, h]

/-- Profanity path of the handler (app.py lines 23-24). -/
theorem sb_profane (w : World) (data : Option (List (String × Json)))
    (h : invalid_query data = false)
    (hp : w.profane (pyStrip (query_field data)) = true) :
    search_books w data =
      (respond_with_profanity_message, [Call.moderation (pyStrip (query_field data))]) := by
  simp [search_books, search_books_body, h, hp]

/-- First-generation error path of the handler (app.py lines 28-29). -/
theorem sb_gen1_error (w : World) (data : Option (List (String × Json)))
    (h : invalid_query data = false)
    (hp : w.profane (pyStrip (query_field data)) = false)
    (he : hasKey (generate_query_with_ollama w.gen1) "error" = true) :
    search_books w data =
      (HttpResponse.json 500 (Json.obj (generate_query_with_ollama w.gen1)),
       [Call.moderation (pyStrip (query_field data)),
        Call.generate (pyStrip (query_field data))]) := by
  simp [search_books, search_books_body, h, hp, he]

/-- Valid-configuration path: the handler continues with the first result
(app.py lines 32, 38-49). -/
theorem sb_valid (w : World) (data : Option (List (String × Json)))
    (h : invalid_query data = false)
    (hp : w.profane (pyStrip (query_field data)) = false)
    (he : hasKey (generate_query_with_ollama w.gen1) "error" = false)
    (hv : validate_query_config (generate_query_with_ollama w.gen1) = true)
    (r : HttpResponse × List Call)
    (ha : after_generation w (pyStrip (query_field data)) (generate_query_with_ollama w.gen1)
            [Call.moderation (pyStrip (query_field data)),
             Call.generate (pyStrip (query_field data))] = Except.ok r) :
    search_books w data = r := by
  simp [search_books, search_books_body, h, hp, he, hv, ha]

/-- Retry path where the retry raises a transport error: line 35 references
the undefined name `logger`, so a `NameError` escapes to the catch-all and
the generic 500 is returned. -/
theorem sb_retry_error (w : World) (data : Option (List (String × Json)))
    (h : invalid_query data = false)
    (hp : w.profane (pyStrip (query_field data)) = false)
    (he : hasKey (generate_query_with_ollama w.gen1) "error" = false)
    (hv : validate_query_config (generate_query_with_ollama w.gen1) = false)
    (he2 : hasKey (generate_query_with_ollama w.gen2) "error" = true) :
    search_books w data =
      (HttpResponse.json 500 unexpectedErrorBody,
       [Call.moderation (pyStrip (query_field data)),
        Call.generate (pyStrip (query_field data)),
        Call.generate (pyStrip (query_field data))]) := by
  simp [search_books, search_books_body, h, hp, he, hv, he2]

/-- Retry path where the retry returns a dict without an `error` key: the
handler proceeds with the retried configuration (app.py lines 33, 38-49). -/
theorem sb_retry_ok (w : World) (data : Option (List (String × Json)))
    (h : invalid_query data = false)
    (hp : w.profane (pyStrip (query_field data)) = false)
    (he : hasKey (generate_query_with_ollama w.gen1) "error" = false)
    (hv : validate_query_config (generate_query_with_ollama w.gen1) = false)
    (he2 : hasKey (generate_query_with_ollama w.gen2) "error" = false)
    (r : HttpResponse × List Call)
    (ha : after_generation w (pyStrip (query_field data)) (generate_query_with_ollama w.gen2)
            [Call.moderation (pyStrip (query_field data)),
             Call.generate (pyStrip (query_field data)),
             Call.generate (pyStrip (query_field data))] = Except.ok r) :
    search_books w data = r := by
  simp [search_books, search_books_body, h, hp, he, hv, he2, ha]

/-- The trace of one refinement call: empty when building the prompt raises,
otherwise the single streaming POST with the built prompt. -/
theorem refine_trace_shape (w : World) (uq : String) (books : Json) :
    (refine_response_with_ollama w uq books).2 = [] ∨
    ∃ d, book_details books = some d ∧
      (refine_response_with_ollama w uq books).2 = [Call.refine (refine_prompt uq d)] := by
  unfold refine_response_with_ollama
  cases hb : book_details books with
  | none => left; rfl
  | some d =>
      cases hr : w.refine with
      | fail m => right; exact ⟨d, rfl, by simp⟩
      | ok ls => right; exact ⟨d, rfl, by simp⟩

/-- The search-and-refine phase appends only search and refinement calls to
the trace, always contains the search call with the parameters built
from the configuration, and never fails. -/
theorem after_generation_trace (w : World) (uq : String) (cfg : List (String × Json))
    (t : List Call) :
    ∃ resp extra, after_generation w uq cfg t = Except.ok (resp, t ++ extra) ∧
      genCount extra = 0 ∧ Call.search (openLibraryParams cfg) ∈ extra ∧
      ∀ c ∈ extra, (∀ x, c ≠ Call.moderation x) ∧ (∀ x, c ≠ Call.generate x) := by
  unfold after_generation search_books_with_openlibrary
  cases hs : w.search with
  | fail msg =>
      exact ⟨HttpResponse.json 500 (Json.obj [("error", Json.str ("Open Library API failed: " ++ msg))]),
        [Call.search (openLibraryParams cfg)],
        by simp [isErrorDict, hasKey], by simp [genCount], by simp, by simp⟩
  | ok books =>
      by_cases hb : isErrorDict books = true
      · exact ⟨HttpResponse.json 500 books, [Call.search (openLibraryParams cfg)],
          by simp [hb], by simp [genCount], by simp, by simp⟩
      · rw [Bool.not_eq_true] at hb
        refine ⟨(refine_response_with_ollama w uq books).1,
          Call.search (openLibraryParams cfg) :: (refine_response_with_ollama w uq books).2,
          by simp [hb], ?_, by simp, ?_⟩
        · rcases refine_trace_shape w uq books with h | ⟨d, _, h⟩ <;>
            simp [h, genCount]
        · rcases refine_trace_shape w uq books with h | ⟨d, _, h⟩ <;>
            simp [h]

/-- On a transport failure of the search call, the search-and-refine phase
returns the `Open Library API failed:` 500 and only adds the search call. -/
theorem after_generation_search_fail (w : World) (uq : String)
    (cfg : List (String × Json)) (t : List Call) (msg : String)
    (hs : w.search = SearchOutcome.fail msg) :
    after_generation w uq cfg t =
      Except.ok (HttpResponse.json 500
          (Json.obj [("error", Json.str ("Open Library API failed: " ++ msg))]),
        t ++ [Call.search (openLibraryParams cfg)]) := by
  simp [after_generation, search_books_with_openlibrary, hs, isErrorDict, hasKey]

/-- `stream_chunks` keeps exactly the non-empty lines, each with a newline
appended. -/
theorem stream_chunks_eq (lines : List String) :
    stream_chunks lines = (lines.filter (fun c => c != "")).map (fun c => c ++ "\n") := by
  induction lines with
  | nil => rfl
  | cons c rest ih =>
      by_cases hc : c = ""
      · simp [stream_chunks, hc, ih]
      · simp [stream_chunks, hc, ih]

/-- `genCount` distributes over append. -/
theorem genCount_append (s t : List Call) : genCount (s ++ t) = genCount s + genCount t := by
  simp [genCount, List.filter_append]

/-- A list of strings wrapped in `Json.str` traverses back successfully. -/
theorem optTraverse_str_of_all (xs : List Json)
    (h : xs.all (fun j => match j with | Json.str _ => true | _ => false) = true) :
    ∃ ys, optTraverse strOfJson xs = some ys := by
  induction xs with
  | nil => exact ⟨[], rfl⟩
  | cons x rest ih =>
      rw [List.all_cons, Bool.and_eq_true] at h
      obtain ⟨ys, hys⟩ := ih h.2
      cases x with
      | str t => exact ⟨t :: ys, by simp [optTraverse, strOfJson, hys]⟩
      | null => simp at h
      | bool b => simp at h
      | num n => simp at h
      | arr l => simp at h
      | obj l => simp at h

/-- The title part of one bullet agrees with the spec-side accessor on a
well-formed document. -/
theorem title_part_eq (kvs : List (String × Json))
    (ht : (match kvs.lookup "title" with
           | none => true
           | some (Json.str _) => true
           | some _ => false) = true) :
    pyStr (dictGet kvs "title" (Json.str "Unknown Title")) =
      (docTitleOpt (Json.obj kvs)).getD "Unknown Title" := by
  cases hl : kvs.lookup "title" with
  | none => simp [dictGet, docTitleOpt, hl, pyStr]
  | some v =>
      rw [hl] at ht
      cases v <;> simp_all [dictGet, docTitleOpt, hl, pyStr]

/-- The author part of one bullet agrees with the spec-side accessor on a
well-formed document. -/
theorem author_part_eq (kvs : List (String × Json))
    (ha : (match kvs.lookup "author_name" with
           | none => true
           | some (Json.arr xs) => xs.all (fun j => match j with | Json.str _ => true | _ => false)
           | some _ => false) = true) :
    joinAuthors (dictGet kvs "author_name" (Json.arr [Json.str "Unknown Author"])) =
      some (String.intercalate ", " ((docAuthorsOpt (Json.obj kvs)).getD ["Unknown Author"])) := by
  cases hl : kvs.lookup "author_name" with
  | none => simp [dictGet, docAuthorsOpt, hl, joinAuthors, optTraverse, strOfJson]
  | some v =>
      rw [hl] at ha
      cases v with
      | arr xs =>
          obtain ⟨ys, hys⟩ := optTraverse_str_of_all xs ha
          simp [dictGet, docAuthorsOpt, hl, joinAuthors, hys]
      | null => simp at ha
      | bool b => simp at ha
      | num n => simp at ha
      | str t => simp at ha
      | obj l => simp at ha

/-- On a well-formed document, the source bullet equals the spec-side
rendering. -/
theorem bookLine_of_wf (d : Json) (h : WfDoc d = true) :
    bookLine d = some (specRenderDoc d) := by
  cases d with
  | obj kvs =>
      rw [WfDoc, Bool.and_eq_true] at h
      rw [bookLine, specRenderDoc, author_part_eq kvs h.2]
      simp [title_part_eq kvs h.1]
  | null => simp [WfDoc] at h
  | bool b => simp [WfDoc] at h
  | num n => simp [WfDoc] at h
  | str t => simp [WfDoc] at h
  | arr l => simp [WfDoc] at h

/-- Bullets of a list of well-formed documents. -/
theorem optTraverse_bookLine_of_wf (l : List Json) (h : ∀ d ∈ l, WfDoc d = true) :
    optTraverse bookLine l = some (l.map specRenderDoc) := by
  induction l with
  | nil => rfl
  | cons d rest ih =>
      rw [optTraverse, bookLine_of_wf d (h d (by simp)),
        ih (fun x hx => h x (by simp [hx]))]
      rfl

/-! ## Claims -/

/-- C1: the search step issues one HTTP request whose parameters map the
query type to the parameter name and the query value to its value, but the
limit value is used as a parameter NAME mapped to itself: no parameter named
`limit` carrying the result cap is ever sent (app.py line 102 passes
`limit` as a dict key). Evaluated at the configuration of the spec
end-to-end example. -/
theorem C1_limit_used_as_param_name :
    openLibraryParams
        [("query_type", Json.str "q"), ("query_value", Json.str "sci-fi"),
         ("limit", Json.str "3")] =
      [(Json.str "q", Json.str "sci-fi"), (Json.str "3", Json.str "3")] ∧
    Json.str "limit" ∉
      (openLibraryParams
        [("query_type", Json.str "q"), ("query_value", Json.str "sci-fi"),
         ("limit", Json.str "3")]).map Prod.fst ∧
    (search_books_with_openlibrary
        ⟨fun _ => false, GenOutcome.fail "", GenOutcome.fail "",
         SearchOutcome.ok (Json.obj []), RefineOutcome.fail ""⟩
        [("query_type", Json.str "q"), ("query_value", Json.str "sci-fi"),
         ("limit", Json.str "3")]).2 =
      [Call.search [(Json.str "q", Json.str "sci-fi"), (Json.str "3", Json.str "3")]] :=
  ⟨by decide, by decide, by decide⟩

/-- C2: when the first structured-query result misses a required key and the
retry fails at the transport level, the handler does NOT return the
`Ollama generation failed:` payload: line 35 references the undefined name
`logger`, the `NameError` escapes to the catch-all and the generic
unexpected-error 500 is returned instead. -/
theorem C2_retry_transport_failure_generic_500 :
    search_books
        ⟨fun _ => false, GenOutcome.ok [("limit", Json.str "3")],
         GenOutcome.fail "connection refused", SearchOutcome.ok (Json.obj []),
         RefineOutcome.ok []⟩
        (some [("query", Json.str "books")]) =
      (HttpResponse.json 500 (Json.obj [("error", Json.str "An unexpected error occurred.")]),
       [Call.moderation "books", Call.generate "books", Call.generate "books"]) ∧
    generate_query_with_ollama (GenOutcome.fail "connection refused") =
      [("error", Json.str "Ollama generation failed: connection refused")] ∧
    (search_books
        ⟨fun _ => false, GenOutcome.ok [("limit", Json.str "3")],
         GenOutcome.fail "connection refused", SearchOutcome.ok (Json.obj []),
         RefineOutcome.ok []⟩
        (some [("query", Json.str "books")])).1 ≠
      HttpResponse.json 500
        (Json.obj [("error", Json.str "Ollama generation failed: connection refused")]) :=
  ⟨by decide, rfl, by decide⟩

/-- C3: any request whose body is absent, lacks the query field, has a
non-string query, or a query that is empty after trimming, yields status 400
with exactly the invalid-input JSON body and an empty collaborator trace. -/
theorem C3_invalid_input (w : World) (data : Option (List (String × Json)))
    (h : invalid_query data = true) :
    search_books w data =
      (HttpResponse.json 400
        (Json.obj [("error",
          Json.str "Invalid input. \x27query\x27 must be a non-empty string.")]),
       []) :=
  sb_invalid w data h

/-- Witness for C3 at a body without the query field. -/
theorem C3_invalid_input_witness :
    invalid_query (some [("wrong_key", Json.str "hello")]) = true ∧
    search_books
        ⟨fun _ => false, GenOutcome.fail "", GenOutcome.fail "", SearchOutcome.fail "",
         RefineOutcome.fail ""⟩
        (some [("wrong_key", Json.str "hello")]) =
      (HttpResponse.json 400
        (Json.obj [("error",
          Json.str "Invalid input. \x27query\x27 must be a non-empty string.")]),
       []) :=
  ⟨by decide, C3_invalid_input _ _ (by decide)⟩

/-- C4: a flagged query short-circuits with status 200 and a single streamed
chunk, and only the moderation collaborator is consulted — but the chunk
text reads that the service, being moderated, does NOW allow for profanity
(the source typo at app.py line 57), not that it does not allow profanity. -/
theorem C4_profanity_notice_text :
    search_books
        ⟨fun _ => true, GenOutcome.fail "x", GenOutcome.fail "x", SearchOutcome.fail "x",
         RefineOutcome.fail "x"⟩
        (some [("query", Json.str "damn")]) =
      (HttpResponse.stream 200 "application/json" [profanity_chunk],
       [Call.moderation "damn"]) ∧
    profanity_chunk =
      "\x7b\"response\": \"The Book Search service is moderated, and does now allow for profanity\"\x7d\n" ∧
    profanity_chunk ≠
      "\x7b\"response\": \"The Book Search service is moderated, and does not allow for profanity\"\x7d\n" :=
  ⟨by decide, rfl, by decide⟩

/-- C5: `validate_query_config` is true exactly when both required keys are
present, and inserting or changing a limit binding never changes the
verdict. -/
theorem C5_validate_query_config_iff (cfg : List (String × Json)) (v : Json) :
    (validate_query_config cfg = true ↔
      ((∃ p ∈ cfg, p.1 = "query_type") ∧ (∃ p ∈ cfg, p.1 = "query_value"))) ∧
    validate_query_config (("limit", v) :: cfg) = validate_query_config cfg := by
  constructor
  · simp [validate_query_config, required_keys, hasKey, List.any_eq_true]
  · have h1 : (("limit" : String) == "query_type") = false := by decide
    have h2 : (("limit" : String) == "query_value") = false := by decide
    simp [validate_query_config, required_keys, hasKey, List.any_cons, h1, h2]

/-- C8: the bulleted book list is built from at most the first three
documents (later documents are never consulted), each rendered as its title
and comma-joined author list with the Unknown defaults. -/
theorem C8_book_list (docs : List Json) :
    book_details (Json.obj [("docs", Json.arr docs)]) =
      book_details (Json.obj [("docs", Json.arr (docs.take 3))]) ∧
    ((∀ d ∈ docs.take 3, WfDoc d = true) →
      book_details (Json.obj [("docs", Json.arr docs)]) =
        some (String.intercalate "\n" ((docs.take 3).map specRenderDoc))) := by
  constructor
  · simp [book_details, dictGet, docsSlice, List.take_take]
  · intro h
    simp [book_details, dictGet, docsSlice, optTraverse_bookLine_of_wf _ h]

/-- Witness for C8: four documents, one with both fields, one missing the
title, one missing the authors, and a fourth non-dict document that is never
consulted. -/
theorem C8_book_list_witness :
    (∀ d ∈ ([Json.obj [("title", Json.str "A"), ("author_name", Json.arr [Json.str "X", Json.str "Y"])],
             Json.obj [("author_name", Json.arr [Json.str "Z"])],
             Json.obj [("title", Json.str "C")],
             Json.num 7] : List Json).take 3, WfDoc d = true) ∧
    book_details (Json.obj [("docs", Json.arr
        [Json.obj [("title", Json.str "A"), ("author_name", Json.arr [Json.str "X", Json.str "Y"])],
         Json.obj [("author_name", Json.arr [Json.str "Z"])],
         Json.obj [("title", Json.str "C")],
         Json.num 7])]) =
      some "• \x27A\x27 by X, Y\n• \x27Unknown Title\x27 by Z\n• \x27C\x27 by Unknown Author" :=
  ⟨by decide,
   ((C8_book_list
      [Json.obj [("title", Json.str "A"), ("author_name", Json.arr [Json.str "X", Json.str "Y"])],
       Json.obj [("author_name", Json.arr [Json.str "Z"])],
       Json.obj [("title", Json.str "C")],
       Json.num 7]).2 (by decide)).trans (by decide)⟩

/-- C10: the search helper always issues exactly one request — its result is
fixed by the transport outcome alone — and when the three configuration keys
are absent the request parameters are built from the defaults. -/
theorem C10_search_defaults (cfg : List (String × Json)) (w : World) :
    (search_books_with_openlibrary w cfg).2 = [Call.search (openLibraryParams cfg)] ∧
    (∀ b, w.search = SearchOutcome.ok b → (search_books_with_openlibrary w cfg).1 = b) ∧
    (cfg.lookup "query_type" = none → cfg.lookup "query_value" = none →
      cfg.lookup "limit" = none →
      openLibraryParams cfg = [(Json.str "q", Json.str ""), (Json.str "3", Json.str "3")]) := by
  refine ⟨?_, ?_, ?_⟩
  · unfold search_books_with_openlibrary
    cases w.search <;> simp
  · intro b hb
    simp [search_books_with_openlibrary, hb]
  · intro h1 h2 h3
    have e1 : ol_query_type cfg = Json.str "q" := by simp [ol_query_type, dictGet, h1]
    have e2 : ol_query_value cfg = Json.str "" := by simp [ol_query_value, dictGet, h2]
    have e3 : ol_limit cfg = Json.str "3" := by simp [ol_limit, dictGet, h3]
    unfold openLibraryParams
    rw [e1, e2, e3]
    decide

/-- Witness for C10 at the empty configuration. -/
theorem C10_search_defaults_witness :
    (search_books_with_openlibrary
        ⟨fun _ => false, GenOutcome.fail "", GenOutcome.fail "",
         SearchOutcome.ok (Json.obj []), RefineOutcome.fail ""⟩ []).2 =
      [Call.search (openLibraryParams [])] ∧
    openLibraryParams [] = [(Json.str "q", Json.str ""), (Json.str "3", Json.str "3")] :=
  ⟨(C10_search_defaults [] _).1, (C10_search_defaults [] ⟨fun _ => false, GenOutcome.fail "",
     GenOutcome.fail "", SearchOutcome.ok (Json.obj []), RefineOutcome.fail ""⟩).2.2 rfl rfl rfl⟩

/-- C6: the generation collaborator runs at most twice per request, a second
run happens only when the first result is an error-free dict missing a
required key, and when the retry result is still invalid the handler
proceeds to the search step with that retried result unchanged. -/
theorem C6_at_most_two_generations (w : World) (data : Option (List (String × Json))) :
    genCount (search_books w data).2 ≤ 2 ∧
    (genCount (search_books w data).2 = 2 →
      ∃ cfg1, w.gen1 = GenOutcome.ok cfg1 ∧ hasKey cfg1 "error" = false ∧
        validate_query_config cfg1 = false) ∧
    (∀ cfg2, w.gen2 = GenOutcome.ok cfg2 →
      hasKey (generate_query_with_ollama w.gen1) "error" = false →
      validate_query_config (generate_query_with_ollama w.gen1) = false →
      hasKey cfg2 "error" = false →
      validate_query_config cfg2 = false →
      invalid_query data = false →
      w.profane (pyStrip (query_field data)) = false →
      Call.search (openLibraryParams cfg2) ∈ (search_books w data).2) := by
  by_cases h1 : invalid_query data = true
  · rw [sb_invalid w data h1]
    refine ⟨by simp [genCount], by simp [genCount], ?_⟩
    intro cfg2 _ _ _ _ _ hinv _
    simp [h1] at hinv
  · rw [Bool.not_eq_true] at h1
    by_cases h2 : w.profane (pyStrip (query_field data)) = true
    · rw [sb_profane w data h1 h2]
      refine ⟨by simp [genCount], by simp [genCount], ?_⟩
      intro cfg2 _ _ _ _ _ _ hp
      simp [h2] at hp
    · rw [Bool.not_eq_true] at h2
      by_cases h3 : hasKey (generate_query_with_ollama w.gen1) "error" = true
      · rw [sb_gen1_error w data h1 h2 h3]
        refine ⟨by simp [genCount], by simp [genCount], ?_⟩
        intro cfg2 _ he1 _ _ _ _ _
        simp [h3] at he1
      · rw [Bool.not_eq_true] at h3
        by_cases h4 : validate_query_config (generate_query_with_ollama w.gen1) = true
        · obtain ⟨resp, extra, ha, hg, hmem, hshape⟩ :=
            after_generation_trace w (pyStrip (query_field data))
              (generate_query_with_ollama w.gen1)
              [Call.moderation (pyStrip (query_field data)),
               Call.generate (pyStrip (query_field data))]
          have hsb := sb_valid w data h1 h2 h3 h4 _ ha
          have h2t : (search_books w data).2 =
              [Call.moderation (pyStrip (query_field data)),
               Call.generate (pyStrip (query_field data))] ++ extra := by rw [hsb]
          refine ⟨?_, ?_, ?_⟩
          · rw [h2t, genCount_append, hg]
            simp [genCount]
          · intro hc
            rw [h2t, genCount_append, hg] at hc
            simp [genCount] at hc
          · intro cfg2 _ _ hv1 _ _ _ _
            simp [h4] at hv1
        · rw [Bool.not_eq_true] at h4
          by_cases h5 : hasKey (generate_query_with_ollama w.gen2) "error" = true
          · rw [sb_retry_error w data h1 h2 h3 h4 h5]
            refine ⟨by simp [genCount], ?_, ?_⟩
            · intro _
              cases hg1 : w.gen1 with
              | fail m =>
                  rw [hg1] at h3
                  simp [generate_query_with_ollama, hasKey] at h3
              | ok cfg1 =>
                  rw [hg1] at h3 h4
                  exact ⟨cfg1, rfl, by simpa [generate_query_with_ollama] using h3,
                    by simpa [generate_query_with_ollama] using h4⟩
            · intro cfg2 hg2 _ _ he2 _ _ _
              rw [hg2] at h5
              simp [generate_query_with_ollama] at h5
              simp [h5] at he2
          · rw [Bool.not_eq_true] at h5
            obtain ⟨resp, extra, ha, hg, hmem, hshape⟩ :=
              after_generation_trace w (pyStrip (query_field data))
                (generate_query_with_ollama w.gen2)
                [Call.moderation (pyStrip (query_field data)),
                 Call.generate (pyStrip (query_field data)),
                 Call.generate (pyStrip (query_field data))]
            have hsb := sb_retry_ok w data h1 h2 h3 h4 h5 _ ha
            have h2t : (search_books w data).2 =
                [Call.moderation (pyStrip (query_field data)),
                 Call.generate (pyStrip (query_field data)),
                 Call.generate (pyStrip (query_field data))] ++ extra := by rw [hsb]
            refine ⟨?_, ?_, ?_⟩
            · rw [h2t, genCount_append, hg]
              simp [genCount]
            · intro _
              cases hg1 : w.gen1 with
              | fail m =>
                  rw [hg1] at h3
                  simp [generate_query_with_ollama, hasKey] at h3
              | ok cfg1 =>
                  rw [hg1] at h3 h4
                  exact ⟨cfg1, rfl, by simpa [generate_query_with_ollama] using h3,
                    by simpa [generate_query_with_ollama] using h4⟩
            · intro cfg2 hg2 _ _ _ _ _ _
              rw [hg2] at hmem
              simp only [generate_query_with_ollama] at hmem
              rw [h2t]
              exact List.mem_append_right _ hmem

/-- Witness for C6: both generation results are error-free dicts missing
required keys; the search step runs with the retried configuration. -/
theorem C6_at_most_two_generations_witness :
    genCount (search_books
        ⟨fun _ => false, GenOutcome.ok [("limit", Json.str "3")],
         GenOutcome.ok [("x", Json.str "y")], SearchOutcome.ok (Json.obj []),
         RefineOutcome.ok []⟩
        (some [("query", Json.str "books")])).2 ≤ 2 ∧
    Call.search (openLibraryParams [("x", Json.str "y")]) ∈
      (search_books
        ⟨fun _ => false, GenOutcome.ok [("limit", Json.str "3")],
         GenOutcome.ok [("x", Json.str "y")], SearchOutcome.ok (Json.obj []),
         RefineOutcome.ok []⟩
        (some [("query", Json.str "books")])).2 :=
  ⟨(C6_at_most_two_generations _ _).1,
   (C6_at_most_two_generations _ _).2.2 [("x", Json.str "y")] rfl (by decide) (by decide)
     (by decide) (by decide) (by decide) rfl⟩

/-- C7: whenever the search collaborator call fails at the transport level
and a search request was issued, the handler responds 500 with the
`Open Library API failed:` message carrying the cause, and the refinement
collaborator is never invoked. -/
theorem C7_search_failed (w : World) (data : Option (List (String × Json))) (msg : String)
    (hs : w.search = SearchOutcome.fail msg)
    (hc : ∃ p, Call.search p ∈ (search_books w data).2) :
    (search_books w data).1 =
      HttpResponse.json 500
        (Json.obj [("error", Json.str ("Open Library API failed: " ++ msg))]) ∧
    ∀ pr, Call.refine pr ∉ (search_books w data).2 := by
  by_cases h1 : invalid_query data = true
  · rw [sb_invalid w data h1] at hc
    simp at hc
  · rw [Bool.not_eq_true] at h1
    by_cases h2 : w.profane (pyStrip (query_field data)) = true
    · rw [sb_profane w data h1 h2] at hc
      simp at hc
    · rw [Bool.not_eq_true] at h2
      by_cases h3 : hasKey (generate_query_with_ollama w.gen1) "error" = true
      · rw [sb_gen1_error w data h1 h2 h3] at hc
        simp at hc
      · rw [Bool.not_eq_true] at h3
        by_cases h4 : validate_query_config (generate_query_with_ollama w.gen1) = true
        · rw [sb_valid w data h1 h2 h3 h4 _
            (after_generation_search_fail w (pyStrip (query_field data))
              (generate_query_with_ollama w.gen1)
              [Call.moderation (pyStrip (query_field data)),
               Call.generate (pyStrip (query_field data))] msg hs)]
          exact ⟨rfl, by intro pr; simp⟩
        · rw [Bool.not_eq_true] at h4
          by_cases h5 : hasKey (generate_query_with_ollama w.gen2) "error" = true
          · rw [sb_retry_error w data h1 h2 h3 h4 h5] at hc
            simp at hc
          · rw [Bool.not_eq_true] at h5
            rw [sb_retry_ok w data h1 h2 h3 h4 h5 _
              (after_generation_search_fail w (pyStrip (query_field data))
                (generate_query_with_ollama w.gen2)
                [Call.moderation (pyStrip (query_field data)),
                 Call.generate (pyStrip (query_field data)),
                 Call.generate (pyStrip (query_field data))] msg hs)]
            exact ⟨rfl, by intro pr; simp⟩

/-- Witness for C7: a valid request whose search transport fails. -/
theorem C7_search_failed_witness :
    (search_books
        ⟨fun _ => false,
         GenOutcome.ok [("query_type", Json.str "q"), ("query_value", Json.str "x")],
         GenOutcome.fail "", SearchOutcome.fail "down", RefineOutcome.ok []⟩
        (some [("query", Json.str "books")])).1 =
      HttpResponse.json 500 (Json.obj [("error", Json.str "Open Library API failed: down")]) ∧
    Call.refine "p" ∉
      (search_books
        ⟨fun _ => false,
         GenOutcome.ok [("query_type", Json.str "q"), ("query_value", Json.str "x")],
         GenOutcome.fail "", SearchOutcome.fail "down", RefineOutcome.ok []⟩
        (some [("query", Json.str "books")])).2 :=
  ⟨(C7_search_failed _ _ "down" rfl
      ⟨[(Json.str "q", Json.str "x"), (Json.str "3", Json.str "3")], by decide⟩).1,
   (C7_search_failed _ _ "down" rfl
      ⟨[(Json.str "q", Json.str "x"), (Json.str "3", Json.str "3")], by decide⟩).2 "p"⟩

/-- C9 (counterexample): the streamed body is not every upstream line with a
newline appended — an empty line is dropped by the truthiness test at
app.py line 135. -/
theorem C9_empty_line_dropped :
    refine_response_with_ollama
        ⟨fun _ => false, GenOutcome.fail "", GenOutcome.fail "", SearchOutcome.fail "",
         RefineOutcome.ok ["a", "", "b"]⟩ "q" (Json.obj [("docs", Json.arr [])]) ≠
      (HttpResponse.stream 200 "text/plain" (["a", "", "b"].map (fun c => c ++ "\n")),
       [Call.refine (refine_prompt "q" "")]) := by
  decide

/-- C9 (amended): on a successful refinement call the response is a
`text/plain` stream forwarding each NON-EMPTY upstream line verbatim with a
newline appended, in order; empty lines are dropped. -/
theorem C9_stream_forwarding (w : World) (uq : String) (books : Json)
    (lines : List String) (d : String)
    (hr : w.refine = RefineOutcome.ok lines) (hb : book_details books = some d) :
    refine_response_with_ollama w uq books =
      (HttpResponse.stream 200 "text/plain"
        ((lines.filter (fun c => c != "")).map (fun c => c ++ "\n")),
       [Call.refine (refine_prompt uq d)]) := by
  simp [refine_response_with_ollama, hb, hr, stream_chunks_eq]

/-- Witness for C9 at a three-line upstream stream with an empty middle
line. -/
theorem C9_stream_forwarding_witness :
    book_details (Json.obj [("docs", Json.arr [])]) = some "" ∧
    refine_response_with_ollama
        ⟨fun _ => false, GenOutcome.fail "", GenOutcome.fail "", SearchOutcome.fail "",
         RefineOutcome.ok ["a", "", "b"]⟩ "q" (Json.obj [("docs", Json.arr [])]) =
      (HttpResponse.stream 200 "text/plain" ["a\n", "b\n"],
       [Call.refine (refine_prompt "q" "")]) :=
  ⟨by decide,
   (C9_stream_forwarding _ "q" _ ["a", "", "b"] "" rfl (by decide)).trans (by decide)⟩
